import Mathlib

/-!
Verification of the credential resolution and configuration lifecycle
subsystem of the kiro-gateway CLI (source file: src/kiro/cli.py).

The embedding models the Python module shallowly:

* JSON documents are the inductive type `Json`; the Python standard
  library functions json.load and json.dump are treated as the external
  collaborator that maps faithfully between file contents and `Json`
  values, so the persisted configuration file is modelled as holding the
  parsed document directly (`ConfigFileState.stored`).
* Filesystem state is passed explicitly: the credential cache directory
  is a listing of (name, file) entries, other files are an association
  list from absolute path to file, and `File` records readability, raw
  text content, the result of attempting a JSON parse on it, and the
  modification time.
* Python truthiness, dict.get, the membership operator `in`, and the
  short-circuiting `or` are modelled explicitly (`Json.truthy`,
  `dict_get`, `pyHasKey`, `pyOr`); operations that raise an uncaught
  exception in Python are modelled as `Option`/`Except` failures.
* secrets.token_urlsafe(16) is modelled as URL-safe base64 encoding
  (without padding) of an explicitly passed 16-byte entropy list.
* sys.exit(1) failure paths are modelled as error outcomes carrying the
  unchanged configuration state.
-/

namespace KiroGateway

/-- JSON documents, as produced by json.load in the Python source. -/
inductive Json where
  | null
  | bool (b : Bool)
  | num (n : Int)
  | str (s : String)
  | arr (elems : List Json)
  | obj (fields : List (String × Json))

/-- Python truthiness of a JSON value: None, False, 0, empty string,
empty list and empty dict are falsy; everything else is truthy. -/
def Json.truthy : Json → Bool
  | .null => false
  | .bool b => b
  | .num n => n != 0
  | .str s => s != ""
  | .arr elems => !elems.isEmpty
  | .obj fields => !fields.isEmpty

/-- Python dict.get(key) with default None. Returns none when the value
is not a dict at all (in which case Python raises AttributeError). -/
def dict_get : Json → String → Option Json
  | .obj fields, k => some ((fields.lookup k).getD .null)
  | _, _ => none

/-- Python dict.get(key, default). Returns none when the value is not a
dict (Python raises AttributeError). -/
def dict_getD : Json → String → Json → Option Json
  | .obj fields, k, d => some ((fields.lookup k).getD d)
  | _, _, _ => none

/-- Does the list of characters pat occur as a prefix of l?  Models the
prefix step of the Python substring operator. -/
def charsStart : List Char → List Char → Bool
  | _, [] => true
  | [], _ :: _ => false
  | a :: as, b :: bs => a == b && charsStart as bs

/-- Does pat occur as a contiguous substring of l?  Models the Python
substring operator on strings. -/
def charsHasSub : List Char → List Char → Bool
  | [], pat => pat.isEmpty
  | a :: rest, pat => charsStart (a :: rest) pat || charsHasSub rest pat

/-- Does the string name end with the given list of characters?  Models
the filename filter of glob("*.json") in the Python source. -/
def charsHasSuffix (l suf : List Char) : Bool :=
  charsStart l.reverse suf.reverse

/-- A file on disk, as the Python source observes it: whether opening
and reading succeeds, the raw text content, the result the json module
gives when asked to parse that content (none models JSONDecodeError),
and the stat modification time. -/
structure File where
  readable : Bool
  content : String
  parsed : Option Json
  mtime : Int

/-- The filesystem state visible to find_kiro_ide_credentials and
install: the home directory path, the fixed SSO credential cache
directory (its existence flag and its entries keyed by file name, the
canonical kiro-auth-token.json included when present), all other files
keyed by absolute path, and the Path.resolve operation of the host. -/
structure FS where
  home : String
  cacheDirPresent : Bool
  cacheEntries : List (String × File)
  otherFiles : List (String × File)
  resolve : String → String

/-- Name of the canonical credential file inside the cache directory
(source line 32: home / ".aws" / "sso" / "cache" / "kiro-auth-token.json"). -/
def canonicalName : String := "kiro-auth-token.json"

/-- Absolute path of an entry of the cache directory. -/
def cachePath (fs : FS) (name : String) : String :=
  fs.home ++ ("/.aws/sso/cache/") ++ name

/-- The textual marker check of find_kiro_ide_credentials (source lines
41 and 57): the raw content contains "accessToken" or "refreshToken" as
a substring.  No JSON parsing happens here. -/
def markerCheck (content : String) : Bool :=
  charsHasSub content.toList ("accessToken").toList
    || charsHasSub content.toList ("refreshToken").toList

/-- A candidate file passes the per-file acceptance test of the locator
when reading it succeeds and the marker check passes; a read failure is
swallowed and the file skipped (source lines 38 to 44 and 54 to 60). -/
def fileQualifies (f : File) : Bool :=
  f.readable && markerCheck f.content

/-- Stable insertion into a list sorted by modification time descending:
ties keep the earlier element first, matching the stability of the
Python list.sort with reverse=True (source line 52). -/
def insertByMtime (e : String × File) : List (String × File) → List (String × File)
  | [] => [e]
  | x :: xs =>
    if x.2.mtime ≤ e.2.mtime then e :: x :: xs else x :: insertByMtime e xs

/-- Stable sort by modification time, newest first: the model of
json_files.sort(key=lambda x: x.stat().st_mtime, reverse=True). -/
def sortByMtimeDesc : List (String × File) → List (String × File)
  | [] => []
  | e :: rest => insertByMtime e (sortByMtimeDesc rest)

/-- The result of glob("*.json") over the cache directory entries. -/
def jsonFilesOf (fs : FS) : List (String × File) :=
  fs.cacheEntries.filter (fun e => charsHasSuffix e.1.toList (".json").toList)

/-- Tier two of find_kiro_ide_credentials (source lines 46 to 60): if
the cache directory exists, take its JSON-suffixed entries, sort them by
modification time descending, and return the first entry passing the
per-file acceptance test, together with its file. -/
def locateTier2 (fs : FS) : Option (String × File) :=
  if fs.cacheDirPresent then
    let json_files := jsonFilesOf fs
    if json_files.isEmpty then none
    else (sortByMtimeDesc json_files).find? (fun e => fileQualifies e.2)
  else none

/-- find_kiro_ide_credentials (source lines 25 to 62), returning the
cache-directory name of the located file together with the file itself:
first the canonical path is tried; if it is absent or fails the
acceptance test, the cache directory scan of tier two runs. -/
def locateWithFile (fs : FS) : Option (String × File) :=
  match fs.cacheEntries.lookup canonicalName with
  | some f => if fileQualifies f then some (canonicalName, f) else locateTier2 fs
  | none => locateTier2 fs

/-- find_kiro_ide_credentials as the source exposes it: the absolute
path of the located credential file, or none. -/
def find_kiro_ide_credentials (fs : FS) : Option String :=
  (locateWithFile fs).map (fun e => cachePath fs e.1)

/-- State of the persisted configuration file
(~/.kiro-proxy/config.json): absent, present but unreadable, present but
not parseable as JSON, or readable and parsed to a stored document. -/
inductive ConfigFileState where
  | absent
  | unreadable
  | malformed
  | stored (doc : Json)

/-- Persistent state owned by the ConfigStore: whether the containing
configuration directory exists, and the configuration file state. -/
structure ConfigState where
  dirExists : Bool
  file : ConfigFileState

/-- get_config (source lines 65 to 73): returns the parsed document when
the file exists and parses; on a missing file, a read failure or a parse
failure it returns the empty dict.  It is total: no failure escapes. -/
def get_config : ConfigFileState → Json
  | .stored doc => doc
  | _ => .obj []

/-- save_config (source lines 76 to 80): first CONFIG_DIR.mkdir(parents,
exist_ok) makes the directory exist, then json.dump fully overwrites the
configuration file with the given document. -/
def save_config (st : ConfigState) (cfg : Json) : ConfigState :=
  { dirExists := true, file := ConfigFileState.stored cfg }

/-- URL-safe base64 alphabet used by secrets.token_urlsafe. -/
def b64Alphabet : List Char :=
  ("ABCDEFGHIJKLMNOPQRSTUVWXYZabcdefghijklmnopqrstuvwxyz0123456789-_").toList

/-- Character of the URL-safe base64 alphabet at a sextet index. -/
def b64Char (n : Nat) : Char := b64Alphabet.getD n ('?')

/-- Index of a character in the URL-safe base64 alphabet (64 when the
character is not in the alphabet). -/
def b64CharIdx (c : Char) : Nat :=
  (b64Alphabet.findIdx? (fun x => x == c)).getD 64

/-- URL-safe base64 encoding of a byte list, without padding, exactly as
base64.urlsafe_b64encode followed by stripping "=" produces it. -/
def b64urlEncode : List Nat → List Char
  | [] => []
  | [a] => [b64Char (a / 4), b64Char (a % 4 * 16)]
  | [a, b] => [b64Char (a / 4), b64Char (a % 4 * 16 + b / 16), b64Char (b % 16 * 4)]
  | a :: b :: c :: rest =>
    b64Char (a / 4) :: b64Char (a % 4 * 16 + b / 16)
      :: b64Char (b % 16 * 4 + c / 64) :: b64Char (c % 64) :: b64urlEncode rest

/-- Partial inverse of b64urlEncode, used to establish injectivity. -/
def b64urlDecode : List Char → List Nat
  | c1 :: c2 :: c3 :: c4 :: rest =>
    (b64CharIdx c1 * 4 + b64CharIdx c2 / 16)
      :: (b64CharIdx c2 % 16 * 16 + b64CharIdx c3 / 4)
      :: (b64CharIdx c3 % 4 * 64 + b64CharIdx c4)
      :: b64urlDecode rest
  | [c1, c2] => [b64CharIdx c1 * 4 + b64CharIdx c2 / 16]
  | [c1, c2, c3] =>
    [b64CharIdx c1 * 4 + b64CharIdx c2 / 16,
      b64CharIdx c2 % 16 * 16 + b64CharIdx c3 / 4]
  | _ => []

/-- secrets.token_urlsafe applied to an explicit entropy draw: the
URL-safe base64 encoding, padding stripped, of the random bytes.  The
source calls it with nbytes = 16, modelled by the entropy list having
length 16 in the theorems below. -/
def token_urlsafe (entropy : List Nat) : String :=
  String.mk (b64urlEncode entropy)

/-- The api key actually used by install (source lines 191 to 195):
Python tests "if not api_key", so both a missing key and an empty
supplied key are replaced by a freshly generated token. -/
def effectiveApiKey (api_key : Option String) (entropy : List Nat) : String :=
  match api_key with
  | some k => if k = "" then token_urlsafe entropy else k
  | none => token_urlsafe entropy

/-- The Python membership operator "key in creds" on a parsed JSON
document: key lookup for dicts, element membership for lists, substring
for strings; none models the TypeError Python raises on the remaining
types (caught by the broad except clause of install). -/
def pyHasKey : Json → String → Option Bool
  | .obj fields, k => some (fields.any (fun e => e.1 == k))
  | .arr elems, k => some (elems.any (fun e => match e with
      | .str s => s == k
      | _ => false))
  | .str s, k => some (charsHasSub s.toList k.toList)
  | _, _ => none

/-- The distinct failure modes of the install command, one per sys.exit
path of source lines 144 to 189. -/
inductive InstallError where
  | ideNotFound
  | noSource
  | readError
  | invalidJson
  | missingFields

/-- Result of running install: success carries the new configuration
state, the persisted document and the api key that was persisted and
surfaced; failure carries the error and the unchanged prior state. -/
inductive InstallOutcome where
  | ok (st : ConfigState) (cfg : Json) (key : String)
  | err (e : InstallError) (st : ConfigState)

/-- Credential source resolution of install (source lines 144 to 171):
the ide flag wins and invokes the locator; otherwise an explicit path is
resolved to an absolute path and looked up on disk (the open happens
later, so the file may be absent); otherwise install fails.  The ide
branch carries the located file: re-opening the just-located path in
this single-threaded flow yields the same file. -/
def chooseSource (fs : FS) (credentials_file : Option String) (ide : Bool) :
    Except InstallError (String × Option File) :=
  if ide then
    match locateWithFile fs with
    | some (name, f) => .ok (cachePath fs name, some f)
    | none => .error .ideNotFound
  else
    match credentials_file with
    | some p => .ok (fs.resolve p, fs.otherFiles.lookup (fs.resolve p))
    | none => .error .noSource

/-- Credential validation of install (source lines 173 to 189): opening
or reading a missing or unreadable file raises and is caught by the
broad except clause; a parse failure is caught as json.JSONDecodeError;
then Python evaluates the short-circuiting condition "accessToken not in
creds and refreshToken not in creds", where a TypeError from the
membership operator is again caught by the broad except clause. -/
def validateCreds (file : Option File) : Option InstallError :=
  match file with
  | none => some .readError
  | some f =>
    if !f.readable then some .readError
    else match f.parsed with
      | none => some .invalidJson
      | some creds =>
        match pyHasKey creds ("accessToken") with
        | none => some .readError
        | some true => none
        | some false =>
          match pyHasKey creds ("refreshToken") with
          | none => some .readError
          | some true => none
          | some false => some .missingFields

/-- install (source lines 129 to 210): resolve the credential source,
validate it, choose the api key, then persist exactly
the document with credentials_file, api_key and port 8000. -/
def install (fs : FS) (st : ConfigState) (credentials_file : Option String)
    (ide : Bool) (api_key : Option String) (entropy : List Nat) : InstallOutcome :=
  match chooseSource fs credentials_file ide with
  | .error e => .err e st
  | .ok (path, file) =>
    match validateCreds file with
    | some e => .err e st
    | none =>
      let key := effectiveApiKey api_key entropy
      let cfg : Json := .obj
        [(("credentials_file"), .str path), (("api_key"), .str key), (("port"), .num 8000)]
      .ok (save_config st cfg) cfg key

/-- The world visible to the start command: the configuration state and
the set of paths that currently exist on disk. -/
structure StartWorld where
  config : ConfigState
  existingPaths : List String

/-- Result of the precondition phase of start: the two distinct failure
diagnostics, or the handoff to the serving component carrying the
resolved credentials path, the chosen server port value and the api key
that are exported to the environment and passed to uvicorn. -/
inductive StartOutcome where
  | notConfigured
  | credsMissing (path : String)
  | handoff (credsPath : String) (serverPort : Json) (apiKey : Json)

/-- Python short-circuiting "a or b" on values, by truthiness. -/
def pyOr (a b : Json) : Json :=
  if a.truthy then a else b

/-- The CLI --port argument as the Python value click passes in. -/
def cliPortJson : Option Int → Json
  | none => .null
  | some p => .num p

/-- start up to the handoff (source lines 213 to 257): load the config,
fail with the not-configured diagnostic when config.get(credentials_file)
is falsy, fail with the distinct missing-file diagnostic when the
referenced path no longer exists, otherwise compute the server port as
"port or config.get(port, 8000)" and the api key as
config.get(api_key, empty) and hand off.  The outer Option models the
uncaught TypeError Python would raise if the loaded document were not a
dict or the stored credentials_file value were not a string. -/
def start (w : StartWorld) (cliPort : Option Int) : Option StartOutcome :=
  match dict_get (get_config w.config.file) ("credentials_file") with
  | none => none
  | some cf =>
    if cf.truthy = false then some .notConfigured
    else
      match cf with
      | .str credsPath =>
        if w.existingPaths.contains credsPath = false then
          some (.credsMissing credsPath)
        else
          match dict_getD (get_config w.config.file) ("port") (.num 8000),
              dict_getD (get_config w.config.file) ("api_key") (.str "") with
          | some portCfg, some apiKeyCfg =>
            some (.handoff credsPath (pyOr (cliPortJson cliPort) portCfg) apiKeyCfg)
          | _, _ => none
      | _ => none

/-- charsStart l pat holds exactly when pat is a prefix of l. -/
theorem charsStart_iff (pat : List Char) : ∀ l : List Char,
    charsStart l pat = true ↔ ∃ post, l = pat ++ post := by
  induction pat with
  | nil =>
    intro l
    cases l <;> simp [charsStart]
  | cons b bs ih =>
    intro l
    cases l with
    | nil => simp [charsStart]
    | cons a as =>
      simp only [charsStart, Bool.and_eq_true, beq_iff_eq, ih as, List.cons_append,
        List.cons.injEq]
      constructor
      · rintro ⟨rfl, post, rfl⟩
        exact ⟨post, rfl, rfl⟩
      · rintro ⟨post, rfl, rfl⟩
        exact ⟨rfl, post, rfl⟩

/-- charsHasSub l pat holds exactly when pat occurs as a contiguous
substring of l. -/
theorem charsHasSub_iff : ∀ l pat : List Char,
    charsHasSub l pat = true ↔ ∃ pre post, l = pre ++ pat ++ post := by
  intro l pat
  induction l with
  | nil =>
    cases pat with
    | nil => simp [charsHasSub]
    | cons p ps => simp [charsHasSub]
  | cons a as ih =>
    simp only [charsHasSub, Bool.or_eq_true]
    constructor
    · intro h
      cases h with
      | inl hs =>
        obtain ⟨post, hpost⟩ := (charsStart_iff pat (a :: as)).mp hs
        exact ⟨[], post, by simp [hpost]⟩
      | inr hr =>
        obtain ⟨pre, post, hp⟩ := ih.mp hr
        exact ⟨a :: pre, post, by simp [hp]⟩
    · rintro ⟨pre, post, hp⟩
      cases pre with
      | nil =>
        left
        refine (charsStart_iff pat (a :: as)).mpr ⟨post, ?_⟩
        simpa using hp
      | cons a2 pre2 =>
        right
        apply ih.mpr
        refine ⟨pre2, post, ?_⟩
        simp only [List.cons_append, List.cons.injEq] at hp
        exact hp.2

/-- Membership through stable insertion by modification time. -/
theorem mem_insertByMtime (e x : String × File) (l : List (String × File)) :
    x ∈ insertByMtime e l ↔ x = e ∨ x ∈ l := by
  induction l with
  | nil => simp [insertByMtime]
  | cons y ys ih =>
    simp only [insertByMtime]
    split
    · simp [List.mem_cons]
    · simp only [List.mem_cons, ih]
      tauto

/-- Membership through the stable sort by modification time. -/
theorem mem_sortByMtimeDesc (x : String × File) (l : List (String × File)) :
    x ∈ sortByMtimeDesc l ↔ x ∈ l := by
  induction l with
  | nil => simp [sortByMtimeDesc]
  | cons e rest ih => simp [sortByMtimeDesc, mem_insertByMtime, ih]

/-- Stable insertion preserves the newest-first ordering. -/
theorem pairwise_insertByMtime (e : String × File) (l : List (String × File))
    (hl : l.Pairwise (fun a b => b.2.mtime ≤ a.2.mtime)) :
    (insertByMtime e l).Pairwise (fun a b => b.2.mtime ≤ a.2.mtime) := by
  induction l with
  | nil => simp [insertByMtime]
  | cons x xs ih =>
    rw [List.pairwise_cons] at hl
    obtain ⟨hx, hxs⟩ := hl
    simp only [insertByMtime]
    split
    · rename_i hle
      rw [List.pairwise_cons]
      constructor
      · intro b hb
        rcases List.mem_cons.mp hb with rfl | hbxs
        · exact hle
        · exact le_trans (hx b hbxs) hle
      · rw [List.pairwise_cons]
        exact ⟨hx, hxs⟩
    · rename_i hgt
      rw [List.pairwise_cons]
      constructor
      · intro b hb
        rcases (mem_insertByMtime e b xs).mp hb with rfl | hbxs
        · omega
        · exact hx b hbxs
      · exact ih hxs

/-- The sort of the locator produces a list ordered newest first. -/
theorem pairwise_sortByMtimeDesc (l : List (String × File)) :
    (sortByMtimeDesc l).Pairwise (fun a b => b.2.mtime ≤ a.2.mtime) := by
  induction l with
  | nil => simp [sortByMtimeDesc]
  | cons e rest ih => exact pairwise_insertByMtime e _ ih

/-- In a list with pairwise distinct modification times, two members
with the same modification time are the same entry. -/
theorem eq_of_pairwise_mtime_ne : ∀ {l : List (String × File)},
    l.Pairwise (fun a b => a.2.mtime ≠ b.2.mtime) →
    ∀ {x y : String × File}, x ∈ l → y ∈ l → x.2.mtime = y.2.mtime → x = y := by
  intro l
  induction l with
  | nil =>
    intro _ x y hx
    cases hx
  | cons a as ih =>
    intro hp x y hx hy hmt
    rw [List.pairwise_cons] at hp
    rcases List.mem_cons.mp hx with rfl | hxas
    · rcases List.mem_cons.mp hy with rfl | hyas
      · rfl
      · exact absurd hmt (hp.1 y hyas)
    · rcases List.mem_cons.mp hy with rfl | hyas
      · exact absurd hmt.symm (hp.1 x hxas)
      · exact ih hp.2 hxas hyas hmt

/-- Decoding a sextet index after encoding it recovers the index. -/
theorem b64CharIdx_b64Char : ∀ n, n < 64 → b64CharIdx (b64Char n) = n := by decide

/-- Every encoded sextet is a character of the URL-safe alphabet. -/
theorem b64Char_mem : ∀ n, n < 64 → b64Char n ∈ b64Alphabet := by decide

/-- Decoding after encoding recovers the byte list, for genuine bytes. -/
theorem b64_roundtrip : ∀ bs : List Nat, (∀ x ∈ bs, x < 256) →
    b64urlDecode (b64urlEncode bs) = bs
  | [], _ => rfl
  | [a], h => by
    have ha : a < 256 := h a (by simp)
    simp only [b64urlEncode, b64urlDecode]
    rw [b64CharIdx_b64Char _ (by omega), b64CharIdx_b64Char _ (by omega)]
    have e1 : a / 4 * 4 + a % 4 * 16 / 16 = a := by omega
    rw [e1]
  | [a, b], h => by
    have ha : a < 256 := h a (by simp)
    have hb : b < 256 := h b (by simp)
    simp only [b64urlEncode, b64urlDecode]
    rw [b64CharIdx_b64Char _ (by omega), b64CharIdx_b64Char _ (by omega),
      b64CharIdx_b64Char _ (by omega)]
    have e1 : a / 4 * 4 + (a % 4 * 16 + b / 16) / 16 = a := by omega
    have e2 : (a % 4 * 16 + b / 16) % 16 * 16 + b % 16 * 4 / 4 = b := by omega
    rw [e1, e2]
  | a :: b :: c :: rest, h => by
    have ha : a < 256 := h a (by simp)
    have hb : b < 256 := h b (by simp)
    have hc : c < 256 := h c (by simp)
    have hrest : ∀ x ∈ rest, x < 256 := fun x hx => h x (by simp [hx])
    simp only [b64urlEncode, b64urlDecode]
    rw [b64CharIdx_b64Char _ (by omega), b64CharIdx_b64Char _ (by omega),
      b64CharIdx_b64Char _ (by omega), b64CharIdx_b64Char _ (by omega)]
    have e1 : a / 4 * 4 + (a % 4 * 16 + b / 16) / 16 = a := by omega
    have e2 : (a % 4 * 16 + b / 16) % 16 * 16 + (b % 16 * 4 + c / 64) / 4 = b := by omega
    have e3 : (b % 16 * 4 + c / 64) % 4 * 64 + c % 64 = c := by omega
    rw [e1, e2, e3, b64_roundtrip rest hrest]

/-- Every character of an encoded byte list lies in the URL-safe
alphabet. -/
theorem b64urlEncode_mem : ∀ bs : List Nat, (∀ x ∈ bs, x < 256) →
    ∀ ch ∈ b64urlEncode bs, ch ∈ b64Alphabet
  | [], _ => by simp [b64urlEncode]
  | [a], h => by
    have ha : a < 256 := h a (by simp)
    intro ch hch
    simp only [b64urlEncode, List.mem_cons, List.not_mem_nil, or_false] at hch
    rcases hch with rfl | rfl
    · exact b64Char_mem _ (by omega)
    · exact b64Char_mem _ (by omega)
  | [a, b], h => by
    have ha : a < 256 := h a (by simp)
    have hb : b < 256 := h b (by simp)
    intro ch hch
    simp only [b64urlEncode, List.mem_cons, List.not_mem_nil, or_false] at hch
    rcases hch with rfl | rfl | rfl
    · exact b64Char_mem _ (by omega)
    · exact b64Char_mem _ (by omega)
    · exact b64Char_mem _ (by omega)
  | a :: b :: c :: rest, h => by
    have ha : a < 256 := h a (by simp)
    have hb : b < 256 := h b (by simp)
    have hc : c < 256 := h c (by simp)
    have hrest : ∀ x ∈ rest, x < 256 := fun x hx => h x (by simp [hx])
    intro ch hch
    simp only [b64urlEncode, List.mem_cons] at hch
    rcases hch with rfl | rfl | rfl | rfl | hch
    · exact b64Char_mem _ (by omega)
    · exact b64Char_mem _ (by omega)
    · exact b64Char_mem _ (by omega)
    · exact b64Char_mem _ (by omega)
    · exact b64urlEncode_mem rest hrest ch hch

/-- Encoding a nonempty byte list yields a nonempty character list. -/
theorem b64urlEncode_ne_nil (a : Nat) (bs : List Nat) : b64urlEncode (a :: bs) ≠ [] := by
  match bs with
  | [] => simp [b64urlEncode]
  | [b] => simp [b64urlEncode]
  | b :: c :: rest => simp [b64urlEncode]

/-- Distinct byte draws produce distinct URL-safe tokens. -/
theorem token_urlsafe_inj (e1 e2 : List Nat) (h1 : ∀ x ∈ e1, x < 256)
    (h2 : ∀ x ∈ e2, x < 256) (hne : e1 ≠ e2) : token_urlsafe e1 ≠ token_urlsafe e2 := by
  intro h
  apply hne
  have hdata : b64urlEncode e1 = b64urlEncode e2 := congrArg String.data h
  calc e1 = b64urlDecode (b64urlEncode e1) := (b64_roundtrip e1 h1).symm
    _ = b64urlDecode (b64urlEncode e2) := by rw [hdata]
    _ = e2 := b64_roundtrip e2 h2

/-- The token generated from a nonempty entropy draw is nonempty. -/
theorem token_urlsafe_ne_empty (e : List Nat) (he : e ≠ []) : token_urlsafe e ≠ "" := by
  match e, he with
  | a :: bs, _ =>
    intro h
    have hd : b64urlEncode (a :: bs) = [] := congrArg String.data h
    exact b64urlEncode_ne_nil a bs hd

/-- Inversion of a successful install run: the key is the effective api
key, the persisted document has exactly the three fields of the source,
the new state is the fully overwritten store, and the path came from the
credential source resolution. -/
theorem install_ok_inv (fs : FS) (st : ConfigState) (cf : Option String) (ide : Bool)
    (ak : Option String) (e : List Nat) (st2 : ConfigState) (cfg : Json) (key : String)
    (h : install fs st cf ide ak e = .ok st2 cfg key) :
    key = effectiveApiKey ak e
    ∧ ∃ path,
        cfg = Json.obj [(("credentials_file"), .str path), (("api_key"), .str key),
          (("port"), .num 8000)]
        ∧ st2 = { dirExists := true, file := ConfigFileState.stored cfg }
        ∧ ∃ file, chooseSource fs cf ide = .ok (path, file) := by
  cases hcs : chooseSource fs cf ide with
  | error e2 => simp [install, hcs] at h
  | ok pf =>
    obtain ⟨path, file⟩ := pf
    cases hv : validateCreds file with
    | some e2 => simp [install, hcs, hv] at h
    | none =>
      simp only [install, hcs, hv] at h
      obtain ⟨hst, hcfg, hkey⟩ := InstallOutcome.ok.inj h
      subst hkey
      refine ⟨rfl, path, hcfg.symm, ?_, file, rfl⟩
      rw [← hst, ← hcfg, save_config]

/-- Length of the padding-free URL-safe encoding of a byte list. -/
theorem b64urlEncode_length : ∀ bs : List Nat,
    (b64urlEncode bs).length = (bs.length * 4 + 2) / 3
  | [] => rfl
  | [a] => by simp [b64urlEncode]
  | [a, b] => by simp [b64urlEncode]
  | a :: b :: c :: rest => by
    simp only [b64urlEncode, List.length_cons, b64urlEncode_length rest]
    omega

/-- Claim C2: every successful install persists exactly the document
with the resolved credentials path, the supplied or generated api key,
and port 8000, fully overwriting the prior configuration state (the new
state does not depend on the old one); for an explicit non-ide
credential path the persisted path is the resolved absolute path. -/
theorem C2_install_persists_exact_config (fs : FS) (st : ConfigState)
    (cf : Option String) (ide : Bool) (ak : Option String) (e : List Nat)
    (st2 : ConfigState) (cfg : Json) (key : String)
    (h : install fs st cf ide ak e = .ok st2 cfg key) :
    ∃ path,
      cfg = Json.obj [(("credentials_file"), .str path), (("api_key"), .str key),
        (("port"), .num 8000)]
      ∧ st2 = { dirExists := true, file := ConfigFileState.stored cfg }
      ∧ (∀ p, ide = false → cf = some p → path = fs.resolve p) := by
  obtain ⟨hkey, path, hcfg, hst, file, hcs⟩ := install_ok_inv fs st cf ide ak e st2 cfg key h
  refine ⟨path, hcfg, hst, ?_⟩
  intro p hide hcf
  subst hide
  subst hcf
  simp only [chooseSource, Bool.false_eq_true, if_false] at hcs
  obtain ⟨h1, h2⟩ := Prod.mk.inj (Except.ok.inj hcs)
  exact h1.symm

/-- Witness for claim C2: installing with a file holding the JSON
document with accessToken abc at a resolvable path, with explicit api
key mykey, persists exactly the expected document. -/
theorem C2_install_persists_exact_config_witness :
    install
      { home := ("/home/u"), cacheDirPresent := false, cacheEntries := [],
        otherFiles := [(("/abs/creds.json"),
          { readable := true, content := ("\x7b\x22accessToken\x22:\x22abc\x22\x7d"),
            parsed := some (.obj [(("accessToken"), .str ("abc"))]), mtime := 0 })],
        resolve := fun _ => ("/abs/creds.json") }
      { dirExists := false, file := .absent }
      (some ("creds.json")) false (some ("mykey")) []
      = .ok
        { dirExists := true, file := ConfigFileState.stored (Json.obj
          [(("credentials_file"), .str ("/abs/creds.json")), (("api_key"), .str ("mykey")),
            (("port"), .num 8000)]) }
        (Json.obj [(("credentials_file"), .str ("/abs/creds.json")),
          (("api_key"), .str ("mykey")), (("port"), .num 8000)])
        ("mykey")
    ∧ ∃ path,
        (Json.obj [(("credentials_file"), .str ("/abs/creds.json")),
          (("api_key"), .str ("mykey")), (("port"), .num 8000)])
        = Json.obj [(("credentials_file"), .str path), (("api_key"), .str ("mykey")),
          (("port"), .num 8000)]
        ∧ ({ dirExists := true, file := ConfigFileState.stored (Json.obj
            [(("credentials_file"), .str ("/abs/creds.json")), (("api_key"), .str ("mykey")),
              (("port"), .num 8000)]) } : ConfigState)
          = { dirExists := true, file := ConfigFileState.stored (Json.obj
            [(("credentials_file"), .str ("/abs/creds.json")), (("api_key"), .str ("mykey")),
              (("port"), .num 8000)]) }
        ∧ (∀ p, false = false → (some ("creds.json") : Option String) = some p →
            path = (fun (_ : String) => ("/abs/creds.json")) p) :=
  ⟨rfl, C2_install_persists_exact_config
    { home := ("/home/u"), cacheDirPresent := false, cacheEntries := [],
      otherFiles := [(("/abs/creds.json"),
        { readable := true, content := ("\x7b\x22accessToken\x22:\x22abc\x22\x7d"),
          parsed := some (.obj [(("accessToken"), .str ("abc"))]), mtime := 0 })],
      resolve := fun _ => ("/abs/creds.json") }
    { dirExists := false, file := .absent }
    (some ("creds.json")) false (some ("mykey")) []
    { dirExists := true, file := ConfigFileState.stored (Json.obj
      [(("credentials_file"), .str ("/abs/creds.json")), (("api_key"), .str ("mykey")),
        (("port"), .num 8000)]) }
    (Json.obj [(("credentials_file"), .str ("/abs/creds.json")),
      (("api_key"), .str ("mykey")), (("port"), .num 8000)])
    ("mykey") rfl⟩

/-- Claim C9: install without an explicit api key persists the URL-safe
token generated from the 16-byte entropy draw (22 characters, hence the
full 128 bits of entropy); every character of the key is in the URL-safe
alphabet; two runs with different draws produce different keys; and the
generated key is exactly the api_key of the persisted document (the
source also echoes it to the operator at line 195). -/
theorem C9_generated_key (fs : FS) (st : ConfigState) (cf : Option String) (ide : Bool)
    (e1 e2 : List Nat) (st1 st2 : ConfigState) (c1 c2 : Json) (k1 k2 : String)
    (hlen1 : e1.length = 16) (hb1 : ∀ x ∈ e1, x < 256) (hb2 : ∀ x ∈ e2, x < 256)
    (h1 : install fs st cf ide none e1 = .ok st1 c1 k1)
    (h2 : install fs st cf ide none e2 = .ok st2 c2 k2) :
    k1 = token_urlsafe e1
    ∧ k1.toList.length = 22
    ∧ (∀ ch ∈ k1.toList, ch ∈ b64Alphabet)
    ∧ (e1 ≠ e2 → k1 ≠ k2)
    ∧ ∃ path, c1 = Json.obj [(("credentials_file"), .str path), (("api_key"), .str k1),
        (("port"), .num 8000)] := by
  obtain ⟨hk1, path1, hcfg1, _⟩ := install_ok_inv fs st cf ide none e1 st1 c1 k1 h1
  obtain ⟨hk2, _⟩ := install_ok_inv fs st cf ide none e2 st2 c2 k2 h2
  have hk1t : k1 = token_urlsafe e1 := hk1
  have hk2t : k2 = token_urlsafe e2 := hk2
  refine ⟨hk1t, ?_, ?_, ?_, path1, hcfg1⟩
  · rw [hk1t]
    show (b64urlEncode e1).length = 22
    rw [b64urlEncode_length e1, hlen1]
  · intro ch hch
    rw [hk1t] at hch
    exact b64urlEncode_mem e1 hb1 ch hch
  · intro hne
    rw [hk1t, hk2t]
    exact token_urlsafe_inj e1 e2 hb1 hb2 hne

/-- Witness for claim C9: two concrete installs with no api key and
distinct 16-byte draws produce the expected distinct URL-safe keys. -/
theorem C9_generated_key_witness :
    ("AAAAAAAAAAAAAAAAAAAAAA" : String) = token_urlsafe (List.replicate 16 0)
    ∧ ("AAAAAAAAAAAAAAAAAAAAAA" : String).toList.length = 22
    ∧ (∀ ch ∈ ("AAAAAAAAAAAAAAAAAAAAAA" : String).toList, ch ∈ b64Alphabet)
    ∧ (List.replicate 16 0 ≠ List.replicate 15 0 ++ [1] →
        ("AAAAAAAAAAAAAAAAAAAAAA" : String) ≠ ("AAAAAAAAAAAAAAAAAAAAAQ" : String))
    ∧ ∃ path, (Json.obj [(("credentials_file"), .str ("/k/c.json")),
        (("api_key"), .str ("AAAAAAAAAAAAAAAAAAAAAA")), (("port"), .num 8000)])
      = Json.obj [(("credentials_file"), .str path),
          (("api_key"), .str ("AAAAAAAAAAAAAAAAAAAAAA")), (("port"), .num 8000)] :=
  C9_generated_key
    { home := ("/h9"), cacheDirPresent := false, cacheEntries := [],
      otherFiles := [(("/k/c.json"),
        { readable := true, content := ("accessToken x"),
          parsed := some (.obj [(("accessToken"), .str ("x"))]), mtime := 0 })],
      resolve := fun _ => ("/k/c.json") }
    { dirExists := false, file := .absent }
    (some ("c.json")) false (List.replicate 16 0) (List.replicate 15 0 ++ [1])
    { dirExists := true, file := ConfigFileState.stored (Json.obj
      [(("credentials_file"), .str ("/k/c.json")),
        (("api_key"), .str ("AAAAAAAAAAAAAAAAAAAAAA")), (("port"), .num 8000)]) }
    { dirExists := true, file := ConfigFileState.stored (Json.obj
      [(("credentials_file"), .str ("/k/c.json")),
        (("api_key"), .str ("AAAAAAAAAAAAAAAAAAAAAQ")), (("port"), .num 8000)]) }
    (Json.obj [(("credentials_file"), .str ("/k/c.json")),
      (("api_key"), .str ("AAAAAAAAAAAAAAAAAAAAAA")), (("port"), .num 8000)])
    (Json.obj [(("credentials_file"), .str ("/k/c.json")),
      (("api_key"), .str ("AAAAAAAAAAAAAAAAAAAAAQ")), (("port"), .num 8000)])
    ("AAAAAAAAAAAAAAAAAAAAAA") ("AAAAAAAAAAAAAAAAAAAAAQ")
    (by decide) (by decide) (by decide) rfl rfl

/-- Claim C10: a successful install never persists an empty api key: a
supplied empty key is treated exactly as no key at all (both take the
generated-token branch of source line 192), and the persisted api_key
equals the nonempty key of the outcome. -/
theorem C10_api_key_nonempty (fs : FS) (st : ConfigState) (cf : Option String)
    (ide : Bool) (ak : Option String) (e : List Nat) (st2 : ConfigState) (cfg : Json)
    (key : String) (hlen : e.length = 16)
    (h : install fs st cf ide ak e = .ok st2 cfg key) :
    key ≠ ""
    ∧ (∃ path, cfg = Json.obj [(("credentials_file"), .str path), (("api_key"), .str key),
        (("port"), .num 8000)])
    ∧ install fs st cf ide (some ("")) e = install fs st cf ide none e := by
  have hne : e ≠ [] := by
    intro h0
    rw [h0] at hlen
    simp at hlen
  obtain ⟨hkey, path, hcfg, _⟩ := install_ok_inv fs st cf ide ak e st2 cfg key h
  refine ⟨?_, ⟨path, hcfg⟩, ?_⟩
  · rw [hkey]
    cases ak with
    | none => exact token_urlsafe_ne_empty e hne
    | some k =>
      by_cases hk : k = ""
      · simp only [effectiveApiKey, hk, if_true]
        exact token_urlsafe_ne_empty e hne
      · simp only [effectiveApiKey, hk, if_false]
        exact hk
  · cases hcs : chooseSource fs cf ide with
    | error e2 => simp [install, hcs]
    | ok pf =>
      obtain ⟨path2, file2⟩ := pf
      cases hv : validateCreds file2 with
      | some e2 => simp [install, hcs, hv]
      | none => simp [install, hcs, hv, effectiveApiKey]

/-- Witness for claim C10: a concrete install with a supplied empty api
key persists the generated token, which is nonempty. -/
theorem C10_api_key_nonempty_witness :
    ("BwcHBwcHBwcHBwcHBwcHBw" : String) ≠ ""
    ∧ (∃ path, (Json.obj [(("credentials_file"), .str ("/k10/c.json")),
        (("api_key"), .str ("BwcHBwcHBwcHBwcHBwcHBw")), (("port"), .num 8000)])
      = Json.obj [(("credentials_file"), .str path),
          (("api_key"), .str ("BwcHBwcHBwcHBwcHBwcHBw")), (("port"), .num 8000)])
    ∧ install
        { home := ("/h10"), cacheDirPresent := false, cacheEntries := [],
          otherFiles := [(("/k10/c.json"),
            { readable := true, content := ("refreshToken y"),
              parsed := some (.obj [(("refreshToken"), .str ("y"))]), mtime := 0 })],
          resolve := fun _ => ("/k10/c.json") }
        { dirExists := false, file := .absent }
        (some ("c.json")) false (some ("")) (List.replicate 16 7)
      = install
        { home := ("/h10"), cacheDirPresent := false, cacheEntries := [],
          otherFiles := [(("/k10/c.json"),
            { readable := true, content := ("refreshToken y"),
              parsed := some (.obj [(("refreshToken"), .str ("y"))]), mtime := 0 })],
          resolve := fun _ => ("/k10/c.json") }
        { dirExists := false, file := .absent }
        (some ("c.json")) false none (List.replicate 16 7) :=
  C10_api_key_nonempty
    { home := ("/h10"), cacheDirPresent := false, cacheEntries := [],
      otherFiles := [(("/k10/c.json"),
        { readable := true, content := ("refreshToken y"),
          parsed := some (.obj [(("refreshToken"), .str ("y"))]), mtime := 0 })],
      resolve := fun _ => ("/k10/c.json") }
    { dirExists := false, file := .absent }
    (some ("c.json")) false (some ("")) (List.replicate 16 7)
    { dirExists := true, file := ConfigFileState.stored (Json.obj
      [(("credentials_file"), .str ("/k10/c.json")),
        (("api_key"), .str ("BwcHBwcHBwcHBwcHBwcHBw")), (("port"), .num 8000)]) }
    (Json.obj [(("credentials_file"), .str ("/k10/c.json")),
      (("api_key"), .str ("BwcHBwcHBwcHBwcHBwcHBw")), (("port"), .num 8000)])
    ("BwcHBwcHBwcHBwcHBwcHBw")
    (by decide) rfl

/-- Claim C5: when the explicitly chosen candidate file fails
validation, install fails without writing: a file that does not parse as
JSON yields the invalid-JSON failure, a file parsing to a JSON object
holding neither the accessToken nor the refreshToken key yields the
distinct missing-fields failure, and in both cases the resulting
configuration state is exactly the prior state (nothing written, the
process exits non-zero). -/
theorem C5_install_validation_failures (fs : FS) (st : ConfigState) (ak : Option String)
    (e : List Nat) (p : String) (f : File)
    (hf : fs.otherFiles.lookup (fs.resolve p) = some f)
    (hr : f.readable = true) :
    (f.parsed = none →
      install fs st (some p) false ak e = .err .invalidJson st)
    ∧ (∀ flds, f.parsed = some (.obj flds) →
        flds.any (fun kv => kv.1 == ("accessToken")) = false →
        flds.any (fun kv => kv.1 == ("refreshToken")) = false →
        install fs st (some p) false ak e = .err .missingFields st)
    ∧ InstallError.invalidJson ≠ InstallError.missingFields := by
  have hcs : chooseSource fs (some p) false = .ok (fs.resolve p, some f) := by
    simp [chooseSource, hf]
  refine ⟨?_, ?_, by intro h; cases h⟩
  · intro hp
    simp [install, hcs, validateCreds, hr, hp]
  · intro flds hp ha hrf
    simp [install, hcs, validateCreds, hr, hp, pyHasKey, ha, hrf]

/-- Witness for claim C5: a non-JSON file fails with the invalid-JSON
error and a JSON object without either token field fails with the
distinct missing-fields error; in both runs the prior configuration
state is returned untouched. -/
theorem C5_install_validation_failures_witness :
    install
      { home := ("/h5"), cacheDirPresent := false, cacheEntries := [],
        otherFiles := [(("/k5/bad.json"),
          { readable := true, content := ("not json"), parsed := none, mtime := 0 })],
        resolve := fun _ => ("/k5/bad.json") }
      { dirExists := true, file := ConfigFileState.stored (Json.obj
        [(("credentials_file"), .str ("/old")), (("api_key"), .str ("oldkey")),
          (("port"), .num 8000)]) }
      (some ("bad.json")) false none []
      = .err .invalidJson
        { dirExists := true, file := ConfigFileState.stored (Json.obj
          [(("credentials_file"), .str ("/old")), (("api_key"), .str ("oldkey")),
            (("port"), .num 8000)]) }
    ∧ install
        { home := ("/h5b"), cacheDirPresent := false, cacheEntries := [],
          otherFiles := [(("/k5/foo.json"),
            { readable := true, content := ("\x7b\x22foo\x22:\x22bar\x22\x7d"),
              parsed := some (.obj [(("foo"), .str ("bar"))]), mtime := 0 })],
          resolve := fun _ => ("/k5/foo.json") }
        { dirExists := false, file := .absent }
        (some ("foo.json")) false none []
      = .err .missingFields { dirExists := false, file := .absent }
    ∧ InstallError.invalidJson ≠ InstallError.missingFields :=
  ⟨(C5_install_validation_failures
      { home := ("/h5"), cacheDirPresent := false, cacheEntries := [],
        otherFiles := [(("/k5/bad.json"),
          { readable := true, content := ("not json"), parsed := none, mtime := 0 })],
        resolve := fun _ => ("/k5/bad.json") }
      { dirExists := true, file := ConfigFileState.stored (Json.obj
        [(("credentials_file"), .str ("/old")), (("api_key"), .str ("oldkey")),
          (("port"), .num 8000)]) }
      none [] ("bad.json")
      { readable := true, content := ("not json"), parsed := none, mtime := 0 }
      rfl rfl).1 rfl,
    (C5_install_validation_failures
      { home := ("/h5b"), cacheDirPresent := false, cacheEntries := [],
        otherFiles := [(("/k5/foo.json"),
          { readable := true, content := ("\x7b\x22foo\x22:\x22bar\x22\x7d"),
            parsed := some (.obj [(("foo"), .str ("bar"))]), mtime := 0 })],
        resolve := fun _ => ("/k5/foo.json") }
      { dirExists := false, file := .absent }
      none [] ("foo.json")
      { readable := true, content := ("\x7b\x22foo\x22:\x22bar\x22\x7d"),
        parsed := some (.obj [(("foo"), .str ("bar"))]), mtime := 0 }
      rfl rfl).2.1 [(("foo"), .str ("bar"))] rfl rfl rfl,
    by intro h; cases h⟩

/-- Claim C4: get_config returns the parsed document exactly when the
configuration file exists, is readable and parses; in the absent,
unreadable and malformed states it returns the empty configuration.  It
is a total function of the file state, so no exception reaches the
caller. -/
theorem C4_get_config_fail_soft :
    (∀ doc, get_config (.stored doc) = doc)
    ∧ get_config .absent = Json.obj []
    ∧ get_config .unreadable = Json.obj []
    ∧ get_config .malformed = Json.obj [] :=
  ⟨fun _ => rfl, rfl, rfl, rfl⟩

/-- Claim C6: save_config followed by get_config returns the document
that was saved, for every prior configuration state, in particular when
the configuration directory did not previously exist; and save_config
makes the directory exist. -/
theorem C6_save_load_roundtrip (st : ConfigState) (p k : String) (n : Int) :
    get_config ((save_config st (Json.obj [(("credentials_file"), .str p),
      (("api_key"), .str k), (("port"), .num n)])).file)
      = Json.obj [(("credentials_file"), .str p), (("api_key"), .str k),
        (("port"), .num n)]
    ∧ (save_config st (Json.obj [(("credentials_file"), .str p),
        (("api_key"), .str k), (("port"), .num n)])).dirExists = true :=
  ⟨rfl, rfl⟩

/-- Claim C8: for a file the locator manages to read, acceptance is a
pure substring test on the raw content: the file qualifies exactly when
accessToken or refreshToken occurs as a contiguous substring, and the
verdict is independent of whether or how the content would parse as
JSON and of the modification time. -/
theorem C8_marker_substring_check (content : String) (p p2 : Option Json) (m m2 : Int) :
    (fileQualifies { readable := true, content := content, parsed := p, mtime := m } = true
      ↔ (∃ pre post, content.toList = pre ++ ("accessToken").toList ++ post)
        ∨ (∃ pre post, content.toList = pre ++ ("refreshToken").toList ++ post))
    ∧ fileQualifies { readable := true, content := content, parsed := p, mtime := m }
      = fileQualifies { readable := true, content := content, parsed := p2, mtime := m2 } := by
  constructor
  · simp only [fileQualifies, markerCheck, Bool.true_and, Bool.or_eq_true]
    rw [charsHasSub_iff, charsHasSub_iff]
  · rfl

/-- Claim C1: with the loaded configuration a JSON object (as the data
model guarantees), start checks its preconditions in order with distinct
failures: a missing or empty credentials_file entry (in particular an
empty configuration) yields the not-configured diagnostic; a non-empty
entry whose path no longer exists yields the distinct missing-file
diagnostic; when both checks pass, start proceeds to the handoff. -/
theorem C1_start_precondition_order (w : StartWorld) (cliPort : Option Int)
    (flds : List (String × Json))
    (hc : get_config w.config.file = .obj flds) :
    ((flds.lookup ("credentials_file") = none
        ∨ flds.lookup ("credentials_file") = some (.str "")) →
      start w cliPort = some .notConfigured)
    ∧ (∀ s, flds.lookup ("credentials_file") = some (.str s) → s ≠ "" →
        w.existingPaths.contains s = false →
        start w cliPort = some (.credsMissing s)
        ∧ StartOutcome.credsMissing s ≠ StartOutcome.notConfigured)
    ∧ (∀ s, flds.lookup ("credentials_file") = some (.str s) → s ≠ "" →
        w.existingPaths.contains s = true →
        ∃ sp ak, start w cliPort = some (.handoff s sp ak)) := by
  refine ⟨?_, ?_, ?_⟩
  · intro hcf
    rcases hcf with hcf | hcf
    · simp [start, hc, dict_get, hcf, Json.truthy]
    · simp [start, hc, dict_get, hcf, Json.truthy]
  · intro s hcf hs hex
    have hs2 : (s != "") = true := by simp [bne_iff_ne, hs]
    have hex2 : s ∉ w.existingPaths := by simpa using hex
    constructor
    · simp [start, hc, dict_get, hcf, Json.truthy, hs2, hex2]
    · intro hcontra
      cases hcontra
  · intro s hcf hs hex
    have hs2 : (s != "") = true := by simp [bne_iff_ne, hs]
    have hex2 : s ∈ w.existingPaths := by simpa using hex
    refine ⟨pyOr (cliPortJson cliPort) ((flds.lookup ("port")).getD (.num 8000)),
      (flds.lookup ("api_key")).getD (.str ""), ?_⟩
    simp [start, hc, dict_get, dict_getD, hcf, Json.truthy, hs2, hex2]

/-- Witness for claim C1: the three outcomes at three concrete worlds:
an absent configuration, a configured world whose credentials file was
deleted, and a fully valid world. -/
theorem C1_start_precondition_order_witness :
    start ⟨⟨true, .absent⟩, []⟩ none = some .notConfigured
    ∧ (start ⟨⟨true, .stored (Json.obj [(("credentials_file"), .str ("/c2"))])⟩, []⟩ none
        = some (.credsMissing ("/c2"))
      ∧ StartOutcome.credsMissing ("/c2") ≠ StartOutcome.notConfigured)
    ∧ ∃ sp ak,
        start ⟨⟨true, .stored (Json.obj [(("credentials_file"), .str ("/c3"))])⟩,
          [("/c3")]⟩ none = some (.handoff ("/c3") sp ak) :=
  ⟨(C1_start_precondition_order ⟨⟨true, .absent⟩, []⟩ none [] rfl).1 (Or.inl rfl),
    (C1_start_precondition_order
      ⟨⟨true, .stored (Json.obj [(("credentials_file"), .str ("/c2"))])⟩, []⟩
      none [(("credentials_file"), .str ("/c2"))] rfl).2.1
      ("/c2") rfl (by decide) rfl,
    (C1_start_precondition_order
      ⟨⟨true, .stored (Json.obj [(("credentials_file"), .str ("/c3"))])⟩, [("/c3")]⟩
      none [(("credentials_file"), .str ("/c3"))] rfl).2.2
      ("/c3") rfl (by decide) rfl⟩

/-- Counterexample to claim C7 as stated: the source computes the
server port as "port or config.get(port, 8000)" (line 236), and Python
evaluates 0 as falsy, so an explicitly supplied CLI port of 0 is not
used: with persisted port 9000 the server binds 9000, not the supplied
0. -/
theorem C7_port_precedence_counterexample :
    start ⟨⟨true, .stored (Json.obj [(("credentials_file"), .str ("/c7")),
      (("port"), .num 9000)])⟩, [("/c7")]⟩ (some 0)
      = some (.handoff ("/c7") (.num 9000) (.str ""))
    ∧ Json.num 9000 ≠ Json.num 0 := by
  constructor
  · rfl
  · intro h
    simp at h

/-- Claim C7 amended: the port precedence holds for every non-zero
explicit CLI port (explicit argument over persisted value over the
default 8000, the last two both covered by config.get(port, 8000)); an
explicit CLI port of 0 is treated like an absent argument by the Python
truthiness of "or" and falls through to the persisted value or
default. -/
theorem C7_port_precedence_amended (w : StartWorld) (cp : Option Int)
    (flds : List (String × Json)) (s : String)
    (hc : get_config w.config.file = .obj flds)
    (hcf : flds.lookup ("credentials_file") = some (.str s)) (hs : s ≠ "")
    (hex : w.existingPaths.contains s = true) :
    (∀ n : Int, cp = some n → n ≠ 0 →
      start w cp = some (.handoff s (.num n) ((flds.lookup ("api_key")).getD (.str ""))))
    ∧ ((cp = none ∨ cp = some 0) →
      start w cp = some (.handoff s ((flds.lookup ("port")).getD (.num 8000))
        ((flds.lookup ("api_key")).getD (.str "")))) := by
  have hs2 : (s != "") = true := by simp [bne_iff_ne, hs]
  have hex2 : s ∈ w.existingPaths := by simpa using hex
  constructor
  · intro n hcp hn
    subst hcp
    have hn2 : ((n : Int) != 0) = true := by simp [bne_iff_ne, hn]
    simp [start, hc, dict_get, dict_getD, hcf, Json.truthy, hs2, hex2, pyOr,
      cliPortJson, hn2]
  · intro hcp
    rcases hcp with rfl | rfl
    · simp [start, hc, dict_get, dict_getD, hcf, Json.truthy, hs2, hex2, pyOr,
        cliPortJson]
    · simp [start, hc, dict_get, dict_getD, hcf, Json.truthy, hs2, hex2, pyOr,
        cliPortJson]

/-- Witness for the amended claim C7: an explicit non-zero CLI port 7
wins over a persisted 9000, and an absent CLI port falls back to the
persisted 9000. -/
theorem C7_port_precedence_amended_witness :
    start ⟨⟨true, .stored (Json.obj [(("credentials_file"), .str ("/c7w")),
        (("port"), .num 9000)])⟩, [("/c7w")]⟩ (some 7)
      = some (.handoff ("/c7w") (.num 7) ((List.lookup ("api_key")
          [(("credentials_file"), Json.str ("/c7w")), (("port"), Json.num 9000)]).getD
          (.str "")))
    ∧ start ⟨⟨true, .stored (Json.obj [(("credentials_file"), .str ("/c7w")),
        (("port"), .num 9000)])⟩, [("/c7w")]⟩ none
      = some (.handoff ("/c7w") ((List.lookup ("port")
          [(("credentials_file"), Json.str ("/c7w")), (("port"), Json.num 9000)]).getD
          (.num 8000)) ((List.lookup ("api_key")
          [(("credentials_file"), Json.str ("/c7w")), (("port"), Json.num 9000)]).getD
          (.str ""))) :=
  ⟨(C7_port_precedence_amended
      ⟨⟨true, .stored (Json.obj [(("credentials_file"), .str ("/c7w")),
        (("port"), .num 9000)])⟩, [("/c7w")]⟩ (some 7)
      [(("credentials_file"), .str ("/c7w")), (("port"), .num 9000)] ("/c7w")
      rfl rfl (by decide) rfl).1 7 rfl (by decide),
    (C7_port_precedence_amended
      ⟨⟨true, .stored (Json.obj [(("credentials_file"), .str ("/c7w")),
        (("port"), .num 9000)])⟩, [("/c7w")]⟩ none
      [(("credentials_file"), .str ("/c7w")), (("port"), .num 9000)] ("/c7w")
      rfl rfl (by decide) rfl).2 (Or.inl rfl)⟩

/-- When the canonical path is absent or fails the acceptance test, the
locator falls through to the cache directory scan. -/
theorem locateWithFile_of_canonical_fail (fs : FS)
    (h1 : ∀ f, fs.cacheEntries.lookup canonicalName = some f → fileQualifies f = false) :
    locateWithFile fs = locateTier2 fs := by
  unfold locateWithFile
  cases hcan : fs.cacheEntries.lookup canonicalName with
  | none => rfl
  | some f => simp [h1 f hcan]

/-- Claim C3: when the canonical path does not qualify, and the cache
directory holds JSON-suffixed files with pairwise distinct modification
times that all pass the marker check, the locator returns exactly the
most recently modified of them; and when no file in either tier
qualifies, the locator returns none. -/
theorem C3_locator_most_recent (fs : FS)
    (h1 : ∀ f, fs.cacheEntries.lookup canonicalName = some f → fileQualifies f = false) :
    (∀ m, fs.cacheDirPresent = true →
      (jsonFilesOf fs).Pairwise (fun a b => a.2.mtime ≠ b.2.mtime) →
      (∀ e ∈ jsonFilesOf fs, fileQualifies e.2 = true) →
      m ∈ jsonFilesOf fs →
      (∀ e ∈ jsonFilesOf fs, e.2.mtime ≤ m.2.mtime) →
      find_kiro_ide_credentials fs = some (cachePath fs m.1))
    ∧ ((∀ e ∈ jsonFilesOf fs, fileQualifies e.2 = false) →
      find_kiro_ide_credentials fs = none) := by
  constructor
  · intro m hdir hpw hq hm hmax
    unfold find_kiro_ide_credentials
    rw [locateWithFile_of_canonical_fail fs h1]
    have hempty : (jsonFilesOf fs).isEmpty = false := by
      cases hjf : jsonFilesOf fs with
      | nil => rw [hjf] at hm; cases hm
      | cons a t => rfl
    cases hs : sortByMtimeDesc (jsonFilesOf fs) with
    | nil =>
      have : m ∈ sortByMtimeDesc (jsonFilesOf fs) := (mem_sortByMtimeDesc m _).mpr hm
      rw [hs] at this
      cases this
    | cons hd t =>
      have hmemsorted : hd ∈ sortByMtimeDesc (jsonFilesOf fs) := by
        rw [hs]
        exact List.mem_cons_self hd t
      have hhd_jf : hd ∈ jsonFilesOf fs := (mem_sortByMtimeDesc hd _).mp hmemsorted
      have hq_hd : fileQualifies hd.2 = true := hq hd hhd_jf
      have hpair : (hd :: t).Pairwise (fun a b => b.2.mtime ≤ a.2.mtime) := by
        rw [← hs]
        exact pairwise_sortByMtimeDesc (jsonFilesOf fs)
      have hm_sorted : m ∈ hd :: t := by
        rw [← hs]
        exact (mem_sortByMtimeDesc m _).mpr hm
      have hle1 : hd.2.mtime ≤ m.2.mtime := hmax hd hhd_jf
      have hle2 : m.2.mtime ≤ hd.2.mtime := by
        rcases List.mem_cons.mp hm_sorted with rfl | hmt
        · exact le_refl _
        · exact (List.pairwise_cons.mp hpair).1 m hmt
      have heq : hd = m :=
        eq_of_pairwise_mtime_ne hpw hhd_jf hm (le_antisymm hle2 hle1).symm
      have htier : locateTier2 fs = some hd := by
        simp only [locateTier2, hdir, if_true, hempty, Bool.false_eq_true, if_false, hs]
        exact List.find?_cons_of_pos _ hq_hd
      rw [htier, heq]
      rfl
  · intro hfail
    unfold find_kiro_ide_credentials
    rw [locateWithFile_of_canonical_fail fs h1]
    cases hdir : fs.cacheDirPresent with
    | false => simp [locateTier2, hdir]
    | true =>
      have hfind : (sortByMtimeDesc (jsonFilesOf fs)).find?
          (fun e => fileQualifies e.2) = none := by
        rw [List.find?_eq_none]
        intro x hx
        have hxjf : x ∈ jsonFilesOf fs := (mem_sortByMtimeDesc x _).mp hx
        simp [hfail x hxjf]
      by_cases hjf : (jsonFilesOf fs).isEmpty
      · simp [locateTier2, hdir, hjf]
      · simp [locateTier2, hdir, hjf, hfind]

/-- Witness for claim C3: in a cache directory with two qualifying JSON
files of modification times 5 and 9 and no canonical file, the locator
returns the newer one; in a directory containing only a non-qualifying
file it returns none. -/
theorem C3_locator_most_recent_witness :
    find_kiro_ide_credentials
      ⟨("/h3"), true,
        [(("b.json"), ⟨true, ("xx accessToken yy"), none, 5⟩),
          (("a.json"), ⟨true, ("zz refreshToken ww"), none, 9⟩)], [], fun s => s⟩
      = some ("/h3/.aws/sso/cache/a.json")
    ∧ find_kiro_ide_credentials
        ⟨("/h3b"), true, [(("x.json"), ⟨true, ("nothing here"), none, 1⟩)], [],
          fun s => s⟩
      = none :=
  ⟨(C3_locator_most_recent
      ⟨("/h3"), true,
        [(("b.json"), ⟨true, ("xx accessToken yy"), none, 5⟩),
          (("a.json"), ⟨true, ("zz refreshToken ww"), none, 9⟩)], [], fun s => s⟩
      (by intro f hf; exact Option.noConfusion hf)).1
      (("a.json"), ⟨true, ("zz refreshToken ww"), none, 9⟩)
      rfl
      (by
        show List.Pairwise (fun (a b : String × File) => a.2.mtime ≠ b.2.mtime)
          [(("b.json"), ⟨true, ("xx accessToken yy"), none, 5⟩),
            (("a.json"), ⟨true, ("zz refreshToken ww"), none, 9⟩)]
        simp [List.pairwise_cons])
      (by
        intro e he
        have he2 : e ∈ [(("b.json"), (⟨true, ("xx accessToken yy"), none, 5⟩ : File)),
          (("a.json"), ⟨true, ("zz refreshToken ww"), none, 9⟩)] := he
        simp only [List.mem_cons, List.not_mem_nil, or_false] at he2
        rcases he2 with rfl | rfl
        · rfl
        · rfl)
      (show (("a.json"), (⟨true, ("zz refreshToken ww"), none, 9⟩ : File)) ∈
          [(("b.json"), ⟨true, ("xx accessToken yy"), none, 5⟩),
            (("a.json"), ⟨true, ("zz refreshToken ww"), none, 9⟩)] from
        List.mem_cons_of_mem _ (List.mem_cons_self _ _))
      (by
        intro e he
        have he2 : e ∈ [(("b.json"), (⟨true, ("xx accessToken yy"), none, 5⟩ : File)),
          (("a.json"), ⟨true, ("zz refreshToken ww"), none, 9⟩)] := he
        simp only [List.mem_cons, List.not_mem_nil, or_false] at he2
        rcases he2 with rfl | rfl
        · decide
        · decide),
    (C3_locator_most_recent
      ⟨("/h3b"), true, [(("x.json"), ⟨true, ("nothing here"), none, 1⟩)], [],
        fun s => s⟩
      (by intro f hf; exact Option.noConfusion hf)).2
      (by
        intro e he
        have he2 : e ∈ [(("x.json"), (⟨true, ("nothing here"), none, 1⟩ : File))] := he
        simp only [List.mem_cons, List.not_mem_nil, or_false] at he2
        rcases he2 with rfl
        rfl)⟩

end KiroGateway
